import Mathlib

/-!
# Verification of the hass-favicon icon locator and template rewriter

Shallow embedding of `custom_components/favicon/__init__.py` and
`custom_components/favicon/config_flow.py`.  Python strings are embedded as
Lean `String` / `List Char`; `dict` results become structures with `Option`
fields; raised exceptions become `Except PyErr`; the filesystem and the host
frontend are explicit state records.
-/

set_option linter.unusedVariables false

deriving instance DecidableEq for Except

namespace Favicon

/-- Exception classes that the embedded code can raise.  (In CPython,
`FileNotFoundError`/`PermissionError` from `Path.iterdir` are subclasses of
`OSError`; `KeyError` is raised by a missing `dict` key; `TypeError` by a call
with a missing required argument.  `LookupError` is listed because the spec
names it; no embedded operation actually raises it.) -/
inductive PyErr where
  | osError
  | keyError
  | typeError
  | lookupError
deriving Repr, DecidableEq

/-! ## Icon locator (`find_icons`, `__init__.py` lines 75–111) -/

/-- One entry of the `manifest` list built by `find_icons`
(`__init__.py` lines 99–105). -/
structure ManifestIcon where
  src : String
  sizes : String
  type : String
deriving Repr, DecidableEq

/-- The `icons` mapping returned by `find_icons`: keys `"favicon"`, `"apple"`,
`"manifest"`, each present only when assigned. -/
structure IconSet where
  favicon : Option String := none
  apple : Option String := none
  manifest : Option (List ManifestIcon) := none
deriving Repr, DecidableEq

/-- `Path(path_str)` for the path shapes reachable here (a nonempty absolute
POSIX path without internal `//` or `.` segments): `PurePosixPath` drops
trailing slashes, e.g. `Path("/local/icons/") == Path("/local/icons")`. -/
def normPath (s : String) : String :=
  ⟨(s.toList.reverse.dropWhile (fun c => c = '/')).reverse⟩

/-- `path / fn` for a normalized absolute `path` and a bare (slash-free,
relative) filename `fn`. -/
def pathJoin (p fn : String) : String :=
  p ++ "/" ++ fn

/-- Python slicing `s[n:]` (counts characters, as `String.toList` does). -/
def strDrop (s : String) (n : Nat) : String :=
  ⟨s.toList.drop n⟩

/-- Python `s.startswith(p)`. -/
def startsWith (s p : String) : Bool :=
  p.toList.isPrefixOf s.toList

/-- `"www" + path_str[len("/local"):]` (`__init__.py` line 84). -/
def localPathOf (s : String) : String :=
  "www" ++ strDrop s 6

/-- `re.search(RE_APPLE, name)` with `RE_APPLE = r"^favicon-apple-"`
(`__init__.py` line 18): anchored literal, so it succeeds exactly on names
starting with `favicon-apple-`. -/
def appleMatch (name : List Char) : Bool :=
  ("favicon-apple-".toList).isPrefixOf name

/-- `re.search(RE_ICON, name)` with `RE_ICON = r"^favicon-(\d+x\d+)\..+"`
(`__init__.py` line 19), returning group 1 on success.  The pattern is
anchored, and backtracking inside `\d+x\d+\.` cannot help: any non-maximal
digit run is followed by another digit, which matches neither `x` nor `\.`.
So the unique possible match takes the maximal digit run, one `x`, another
maximal digit run, a literal dot, and at least one further character.
(`\d` is modelled as an ASCII digit; the filenames involved are ASCII.) -/
def sizedIconMatch (name : List Char) : Option (List Char) :=
  if ("favicon-".toList).isPrefixOf name then
    let r := name.drop 8
    let d1 := r.takeWhile Char.isDigit
    match d1, r.dropWhile Char.isDigit with
    | _ :: _, 'x' :: r2 =>
      let d2 := r2.takeWhile Char.isDigit
      match d2, r2.dropWhile Char.isDigit with
      | _ :: _, '.' :: (_ :: _) => some (d1 ++ 'x' :: d2)
      | _, _ => none
    | _, _ => none
  else none

/-- Accumulator of the `for fn in localpath.iterdir()` loop: the two dict
keys assigned so far and the `manifest` list built so far. -/
structure ScanAcc where
  favicon : Option String
  apple : Option String
  manifest : List ManifestIcon
deriving Repr, DecidableEq

/-- One iteration of the loop body (`__init__.py` lines 89–106) on entry
name `fn`; `base` is `Path(path_str)`.  The three checks are independent. -/
def scanEntry (base : String) (acc : ScanAcc) (fn : String) : ScanAcc :=
  let acc := if fn = "favicon.ico" then
    { acc with favicon := some (pathJoin base fn) } else acc
  let acc := if appleMatch fn.toList then
    { acc with apple := some (pathJoin base fn) } else acc
  match sizedIconMatch fn.toList with
  | some sz =>
      { acc with
        manifest := acc.manifest ++ [⟨pathJoin base fn, ⟨sz⟩, "image/png"⟩] }
  | none => acc

/-- The whole loop, over the directory entries in enumeration order. -/
def scanDir (base : String) : ScanAcc → List String → ScanAcc
  | acc, [] => acc
  | acc, fn :: rest => scanDir base (scanEntry base acc fn) rest

/-- `if manifest: icons["manifest"] = manifest` (`__init__.py` lines 108–109),
assembling the returned mapping. -/
def finishScan (acc : ScanAcc) : IconSet :=
  { favicon := acc.favicon
    apple := acc.apple
    manifest := if acc.manifest = [] then none else some acc.manifest }

/-- The filesystem and the host's storage-path resolver: `hass.config.path`
joins the configuration directory with the relative path, and
`Path.iterdir` either lists the directory's entry names (in enumeration
order) or raises an `OSError` subclass, modelled as `none`. -/
structure FileSystem where
  configDir : String
  listDir : String → Option (List String)

/-- Result of `find_icons` when it returns (rather than raises):
the mapping, plus whether the `Invalid Path` error was logged
(`_LOGGER.error`, `__init__.py` line 81). -/
structure FindOut where
  icons : IconSet
  invalidPathLogged : Bool
deriving Repr, DecidableEq

/-- `find_icons(hass, path_str)` (`__init__.py` lines 75–111).
`path_str` is `config_data.get(CONF_ICON_PATH, None)`, hence `Option`.
`not path_str` is true for `None` and for the empty string.  The directory
scan raises (propagates) when `iterdir` fails; nothing catches it here. -/
def find_icons (fs : FileSystem) (pathStr : Option String) :
    Except PyErr FindOut :=
  match pathStr with
  | none => .ok ⟨{}, true⟩
  | some s =>
    if s = "" ∨ ¬ startsWith s "/local/" then .ok ⟨{}, true⟩
    else
      match fs.listDir (fs.configDir ++ "/" ++ localPathOf s) with
      | none => .error .osError
      | some entries =>
          .ok ⟨finishScan (scanDir (normPath s) ⟨none, none, []⟩ entries), false⟩

/-- Filesystem used by concrete scenarios: `/config/www/icons/` holds exactly
the three files of the spec's worked example. -/
def fsExample : FileSystem where
  configDir := "/config"
  listDir := fun p =>
    if p = "/config/www/icons/" then
      some ["favicon.ico", "favicon-apple-180x180.png", "favicon-32x32.png"]
    else none

/-! ## Color conversions (`config_flow.py` lines 28–44, 80–85) -/

/-- Python `str.lower` on one character (the strings involved are ASCII). -/
def pyLowerChar (c : Char) : Char :=
  if 'A' ≤ c ∧ c ≤ 'Z' then Char.ofNat (c.toNat + 32) else c

/-- Python `str.upper` on one character (the strings involved are ASCII). -/
def pyUpperChar (c : Char) : Char :=
  if 'a' ≤ c ∧ c ≤ 'z' then Char.ofNat (c.toNat - 32) else c

/-- The sixteen uppercase hex digits, indexed by value. -/
def hexDigitUpper (n : Nat) : Char :=
  "0123456789ABCDEF".toList.getD n '0'

/-- `"{:02X}".format(n)` for a byte value `n < 256` (the caller's range
check guarantees this). -/
def byteHexUpper (n : Nat) : List Char :=
  [hexDigitUpper (n / 16), hexDigitUpper (n % 16)]

/-- `rgb_list_to_hex(rgb)` (`config_flow.py` lines 28–36): `None` unless
`rgb` has exactly three components, each in `0..255`; otherwise the
lowercased 6-digit hex form with a `#` prepended (the formatted string never
itself starts with `#`, but the source checks). -/
def rgb_list_to_hex (rgb : List Int) : Option String :=
  if rgb.length ≠ 3 ∨ ¬ ∀ x ∈ rgb, 0 ≤ x ∧ x ≤ 255 then none
  else
    let hex_str : String :=
      ⟨(byteHexUpper (rgb.getD 0 0).toNat ++ byteHexUpper (rgb.getD 1 0).toNat
          ++ byteHexUpper (rgb.getD 2 0).toNat).map pyLowerChar⟩
    some (if startsWith hex_str "#" then hex_str else "#" ++ hex_str)

/-- Value of one hex digit, either case, as accepted by `int(·, 16)`. -/
def hexVal (c : Char) : Option Nat :=
  let n := c.toNat
  if 48 ≤ n ∧ n ≤ 57 then some (n - 48)
  else if 65 ≤ n ∧ n ≤ 70 then some (n - 65 + 10)
  else if 97 ≤ n ∧ n ≤ 102 then some (n - 97 + 10)
  else none

def parseHexNatAux (acc : Nat) : List Char → Option Nat
  | [] => some acc
  | c :: r =>
    match hexVal c with
    | some v => parseHexNatAux (16 * acc + v) r
    | none => none

/-- Python `int(s, 16)` (`None` models the raised `ValueError`), for strings
consisting of an optional sign followed by hex digits; the wider `int`
lexicon (surrounding whitespace, a `0x` marker, `_` separators) never occurs
in the strings this program feeds it. -/
def parseHexInt : List Char → Option Int
  | [] => none
  | '-' :: r => if r = [] then none else (parseHexNatAux 0 r).map (fun n => -(n : Int))
  | '+' :: r => if r = [] then none else (parseHexNatAux 0 r).map (fun n => (n : Int))
  | s => (parseHexNatAux 0 s).map (fun n => (n : Int))

/-- Python slicing `s[i:i+n]`. -/
def slice (s : List Char) (i n : Nat) : List Char :=
  (s.drop i).take n

/-- `hex_to_rgb_list(hex_str)` (`config_flow.py` lines 39–44): strip leading
`#`s, uppercase, and parse the character pairs at offsets 0, 2 and 4.
`None` models the `ValueError` the comprehension raises on a malformed
string. -/
def hex_to_rgb_list (hexStr : String) : Option (List Int) :=
  let s := (hexStr.toList.dropWhile (fun c => c = '#')).map pyUpperChar
  match parseHexInt (slice s 0 2), parseHexInt (slice s 2 2),
      parseHexInt (slice s 4 2) with
  | some r, some g, some b => some [r, g, b]
  | _, _, _ => none

/-- A Python value that can sit under the `launch_icon_color` key of the
config-flow `user_input` dict. -/
inductive PyVal where
  | str (s : String)
  | intList (l : List Int)
  | noneVal
deriving Repr, DecidableEq

/-- `_convert_color_to_hex(user_input)` (`config_flow.py` lines 80–85),
restricted to its effect on the `launch_icon_color` value it reads and may
overwrite in place: only a `list` value is converted, and only when
`rgb_list_to_hex` returns a truthy (non-`None`, nonempty) string. -/
def convert_color_to_hex (colorVal : PyVal) : PyVal :=
  match colorVal with
  | .intList l =>
    match rgb_list_to_hex l with
    | some h => if h = "" then .intList l else .str h
    | none => .intList l
  | v => v

/-! ## The installed render wrapper (`new_render`, `__init__.py` lines 130–180)

`new_render` first calls the captured original `render` on its arguments and
then post-processes the returned text; the post-processing is a pure string
transformation of the configuration captured by the closure, embedded here as
`new_render_text` over `List Char`. -/

/-- Python `str.replace(old, new)`: every non-overlapping occurrence, left to
right.  `fuel` bounds the number of scan steps; callers pass the subject's
length, which suffices because every step consumes at least one character.
(Both call sites pass a nonempty `old`; the `old = []` guard only keeps the
fuel argument honest.) -/
def replaceAllAux (old new : List Char) : Nat → List Char → List Char
  | _, [] => []
  | 0, s => s
  | fuel + 1, c :: rest =>
    if old ≠ [] ∧ old.isPrefixOf (c :: rest) then
      new ++ replaceAllAux old new fuel ((c :: rest).drop old.length)
    else
      c :: replaceAllAux old new fuel rest

/-- `s.replace(old, new)`. -/
def pyReplace (s old new : List Char) : List Char :=
  replaceAllAux old new s.length s

/-- The character class `[0-9a-fA-F]` of the hex-color pattern
(`__init__.py` line 164). -/
def hexClass : List Char := "0123456789abcdefABCDEF".toList

/-- `#(?:[0-9a-fA-F]{6})`: consume a `#` and exactly six hex digits,
returning the remainder. -/
def hexColorChomp : List Char → Option (List Char)
  | '#' :: d1 :: d2 :: d3 :: d4 :: d5 :: d6 :: rest =>
    if d1 ∈ hexClass ∧ d2 ∈ hexClass ∧ d3 ∈ hexClass ∧ d4 ∈ hexClass
        ∧ d5 ∈ hexClass ∧ d6 ∈ hexClass then
      some rest
    else none
  | _ => none

/-- Match a literal regex fragment, returning the remainder. -/
def matchLit : List Char → List Char → Option (List Char)
  | [], s => some s
  | _ :: _, [] => none
  | e :: es, c :: cs => if c = e then matchLit es cs else none

/-- Try the whole pattern `(lit1)#[0-9a-fA-F]{6}(lit2)` at the start of `s`,
returning the remainder after the match. -/
def tryColorMatch (lit1 lit2 s : List Char) : Option (List Char) :=
  match matchLit lit1 s with
  | none => none
  | some r1 =>
    match hexColorChomp r1 with
    | none => none
    | some r2 => matchLit lit2 r2

/-- `re.sub(pattern, repl, text)` for a pattern of the shape
`(lit1)#[0-9a-fA-F]{6}(lit2)` and replacement `\1` ++ `repl` ++ `\2`
(the groups are literal fragments, so `\1`/`\2` expand to `lit1`/`lit2`;
the interpolated replacement color contains no backslash).  All
non-overlapping occurrences, leftmost first, scanning resumes after each
match — `re.sub`'s semantics.  `fuel` bounds the scan steps as in
`replaceAllAux`. -/
def subColorAllAux (lit1 lit2 repl : List Char) : Nat → List Char → List Char
  | _, [] => []
  | 0, s => s
  | fuel + 1, c :: rest =>
    match tryColorMatch lit1 lit2 (c :: rest) with
    | some after => lit1 ++ repl ++ lit2 ++ subColorAllAux lit1 lit2 repl fuel after
    | none => c :: subColorAllAux lit1 lit2 repl fuel rest

def subColorAll (lit1 lit2 repl s : List Char) : List Char :=
  subColorAllAux lit1 lit2 repl s.length s

/-- Same, with `count=1`: after the first match the rest of the text is
emitted unchanged. -/
def subColorFirstAux (lit1 lit2 repl : List Char) : Nat → List Char → List Char
  | _, [] => []
  | 0, s => s
  | fuel + 1, c :: rest =>
    match tryColorMatch lit1 lit2 (c :: rest) with
    | some after => lit1 ++ repl ++ lit2 ++ after
    | none => c :: subColorFirstAux lit1 lit2 repl fuel rest

def subColorFirst (lit1 lit2 repl s : List Char) : List Char :=
  subColorFirstAux lit1 lit2 repl s.length s

/-- Group 1 of the mask-icon pattern (`__init__.py` lines 167–169). -/
def maskLinkBefore : List Char :=
  "<link rel=\"mask-icon\" href=\"/static/icons/mask-icon.svg\" color=\"".toList

/-- Group 2 of the mask-icon pattern. -/
def maskLinkAfter : List Char := "\">".toList

/-- Group 1 of the path-fill pattern (`__init__.py` line 174). -/
def pathFillBefore : List Char := "<path fill=\"".toList

/-- Group 2 of the path-fill pattern. -/
def pathFillAfter : List Char := "\"".toList

/-- The f-string injected after `<body>` (`__init__.py` lines 141–159),
parameterized by the title; `\x7b`/`\x7d` are literal braces (the source's
doubled `{{`/`}}`) and `\x27` a literal apostrophe. -/
def bodyScript (title : List Char) : List Char :=
  ("\n"
    ++ "                    <body>\n"
    ++ "                        <script type=\"module\">\n"
    ++ "                            customElements.whenDefined(\x27ha-sidebar\x27).then(() => \x7b\n"
    ++ "                                const Sidebar = customElements.get(\x27ha-sidebar\x27);\n"
    ++ "                                const updated = Sidebar.prototype.updated;\n"
    ++ "                                Sidebar.prototype.updated = function(changedProperties) \x7b\n"
    ++ "                                    updated.bind(this)(changedProperties);\n"
    ++ "                                    this.shadowRoot.querySelector(\".title\").innerHTML = \"").toList
  ++ title
  ++ ("\";\n"
    ++ "                                \x7d;\n"
    ++ "                            \x7d);\n"
    ++ "\n"
    ++ "                            window.setInterval(() => \x7b\n"
    ++ "                                if(!document.title.endsWith(\"- ").toList
  ++ title
  ++ ("\") && document.title !== \"").toList
  ++ title
  ++ ("\") \x7b\n"
    ++ "                                    document.title = document.title.replace(/Home Assistant/, \"").toList
  ++ title
  ++ ("\");\n"
    ++ "                                \x7d\n"
    ++ "                            \x7d, 1000);\n"
    ++ "                        </script>\n"
    ++ "                    ").toList

/-- The body of `new_render` after `text = render(*args, **kwargs)`
(`__init__.py` lines 133–180): the four rewriting stages in source order.
An `if x:` test on a Python string is false for `None` and for `""`. -/
def new_render_text (icons : IconSet) (title : Option String)
    (launchIconColor : Option String) (text : List Char) : List Char :=
  let text := match icons.favicon with
    | some f => pyReplace text "/static/icons/favicon.ico".toList f.toList
    | none => text
  let text := match icons.apple with
    | some a =>
        pyReplace text "/static/icons/favicon-apple-180x180.png".toList a.toList
    | none => text
  let text := match title with
    | some t =>
      if t = "" then text
      else
        let text := pyReplace text "<title>Home Assistant</title>".toList
          ("<title>".toList ++ t.toList ++ "</title>".toList)
        pyReplace text "<body>".toList (bodyScript t.toList)
    | none => text
  let text := match launchIconColor with
    | some c =>
      if c = "" then text
      else
        let text := subColorAll maskLinkBefore maskLinkAfter c.toList text
        subColorFirst pathFillBefore pathFillAfter c.toList text
    | none => text
  text

/-- The installed wrapper `new_render` as a function of the captured original
`render` and the (opaque) call arguments: it calls `render` on those
arguments and post-processes the output.  The closure reads `icons`,
`title` and `launch_icon_color` and writes nothing. -/
def hookedRender (icons : IconSet) (title launchIconColor : Option String)
    (render : Nat → List Char) (args : Nat) : List Char :=
  new_render_text icons title launchIconColor (render args)

/-! ## Lifecycle: `async_setup`, `apply_hooks`, `remove_hooks`
(`__init__.py` lines 24–57, 114–212)

Mutating Python code becomes explicit state passing.  Each operation returns
the state after its effects together with `Except.ok` of its return value, or
`Except.error` of the exception it raises; effects applied before a raise are
kept in the returned state.  Python list objects are modelled with an
identity tag (`ref`) so that `.copy()` (same value, fresh identity) is
distinguishable from sharing a reference; fresh tags come from an allocation
counter in the state. -/

/-- A Python list object: identity plus contents. -/
structure PyList where
  ref : Nat
  val : List ManifestIcon
deriving Repr, DecidableEq

/-- The manifest keys this component touches, via
`frontend.add_manifest_json_key`. -/
structure ManifestJson where
  icons : PyList
  name : String
  short_name : String
deriving Repr, DecidableEq

/-- The value sitting in the `frontend.IndexView.get_template` slot: the
host's original bound function (an opaque tag) or the `_get_template`
closure installed by `apply_hooks`, carrying the rewrite configuration its
inner `new_render` reads (the closure also holds the shared
`hass.data[DOMAIN]` mapping, looked up again at render time). -/
inductive TemplateFn where
  | original (tag : Nat)
  | hooked (icons : IconSet) (title : Option String) (color : Option String)
deriving Repr, DecidableEq

structure Frontend where
  getTemplate : TemplateFn
  manifest : ManifestJson
  /-- the `_template_cache` of the `IndexView` route, `None` after
  `apply_hooks` clears it (`__init__.py` lines 186–188) -/
  indexViewCache : Option Nat
deriving Repr, DecidableEq

/-- The three `CONF_KEYS` entries of a configuration mapping; `none` when the
key is absent. -/
structure Conf where
  title : Option String
  icon_path : Option String
  launch_icon_color : Option String
deriving Repr, DecidableEq

/-- `hass.data[DOMAIN]`. -/
structure DomainData where
  get_template : Option TemplateFn
  manifest_icons : Option PyList
  conf : Conf
deriving Repr, DecidableEq

def emptyDomainData : DomainData :=
  ⟨none, none, ⟨none, none, none⟩⟩

structure HassState where
  frontend : Frontend
  /-- `hass.data.get(DOMAIN)`: `none` before `setdefault` created it -/
  domainData : Option DomainData
  /-- fresh identity supply for newly created list objects -/
  alloc : Nat
deriving Repr, DecidableEq

/-- Allocate a list object with the given contents (a fresh list literal, or
the result of `.copy()`). -/
def allocList (st : HassState) (v : List ManifestIcon) : PyList × HassState :=
  (⟨st.alloc, v⟩, { st with alloc := st.alloc + 1 })

/-- `if title:` — a Python `str` tests false exactly when empty, and `None`
tests false. -/
def truthy : Option String → Bool
  | none => false
  | some s => s != ""

/-- `add_manifest_json_key` for `name`/`short_name`
(`__init__.py` lines 195–200): the override title when truthy, else the
fixed defaults. -/
def addTitleKeys (st : HassState) (title : Option String) : HassState :=
  if truthy title then
    { st with frontend := { st.frontend with
        manifest := { st.frontend.manifest with
          name := title.getD "", short_name := title.getD "" } } }
  else
    { st with frontend := { st.frontend with
        manifest := { st.frontend.manifest with
          name := "Home Assistant", short_name := "Assistant" } } }

/-- `apply_hooks(hass, config_data)` (`__init__.py` lines 114–202).  The
`find_icons` call runs in an executor and its exception re-raises at the
`await`; nothing here catches it.  `data = hass.data.get(DOMAIN, {})`
defaults to an empty mapping, whose `data["manifest_icons"]` lookup on the
no-manifest branch raises `KeyError`. -/
def apply_hooks (fs : FileSystem) (st : HassState) (config_data : Conf) :
    HassState × Except PyErr Bool :=
  match find_icons fs config_data.icon_path with
  | .error e => (st, .error e)
  | .ok out =>
    let icons := out.icons
    let title := config_data.title
    let launch_icon_color := config_data.launch_icon_color
    let data := st.domainData.getD emptyDomainData
    -- frontend.IndexView.get_template = _get_template, and the template
    -- cache of the IndexView route is cleared
    let st := { st with
      frontend := { st.frontend with
        getTemplate := .hooked icons title launch_icon_color
        indexViewCache := none } }
    match icons.manifest with
    | some m =>
      -- add_manifest_json_key("icons", icons["manifest"]): installs the list
      -- object built by find_icons (fresh, not shared with any original)
      let (pl, st) := allocList st m
      let st := { st with
        frontend := { st.frontend with
          manifest := { st.frontend.manifest with icons := pl } } }
      (addTitleKeys st title, .ok true)
    | none =>
      match data.manifest_icons with
      | none => (st, .error .keyError)
      | some orig =>
        -- add_manifest_json_key("icons", data["manifest_icons"].copy())
        let (pl, st) := allocList st orig.val
        let st := { st with
          frontend := { st.frontend with
            manifest := { st.frontend.manifest with icons := pl } } }
        (addTitleKeys st title, .ok true)

/-- `async_setup(hass, config)` (`__init__.py` lines 24–43).  Captures the
original template function and manifest icon list into `hass.data[DOMAIN]`
if not already (truthily) present.  With a YAML `conf` present it then calls
`apply_hooks(hass)` — which is missing its required `config_data` argument,
so the call raises `TypeError` (source line 43 versus the signature at
line 114). -/
def async_setup (st : HassState) (conf : Option Conf) :
    HassState × Except PyErr Bool :=
  let dd := st.domainData.getD emptyDomainData
  let dd := if dd.get_template.isNone then
    { dd with get_template := some st.frontend.getTemplate } else dd
  -- `if not ...get("manifest_icons")`: an empty captured list is falsy and
  -- would be re-captured
  let recapture := match dd.manifest_icons with
    | none => true
    | some pl => pl.val = []
  let (dd, st) :=
    if recapture then
      let (pl, st1) := allocList st st.frontend.manifest.icons.val
      ({ dd with manifest_icons := some pl }, st1)
    else (dd, st)
  let st := { st with domainData := some dd }
  match conf with
  | none => (st, .ok true)
  | some c =>
    let st := { st with domainData := some { dd with conf := c } }
    (st, .error .typeError)

/-- `remove_hooks(hass)` (`__init__.py` lines 205–212).  Raises `KeyError`
when `hass.data[DOMAIN]` or the captured keys are absent; the raise at
line 209 happens after the template slot was already restored. -/
def remove_hooks (st : HassState) : HassState × Except PyErr Bool :=
  match st.domainData with
  | none => (st, .error .keyError)
  | some dd =>
    match dd.get_template with
    | none => (st, .error .keyError)
    | some orig =>
      let st := { st with
        frontend := { st.frontend with getTemplate := orig } }
      match dd.manifest_icons with
      | none => (st, .error .keyError)
      | some pl =>
        let (cp, st) := allocList st pl.val
        let st := { st with
          frontend := { st.frontend with
            manifest := { icons := cp, name := "Home Assistant",
                          short_name := "Assistant" } } }
        (st, .ok true)

/-- `async_remove_entry(hass, _)` (`__init__.py` lines 55–57): returns
`remove_hooks(hass)` directly, catching nothing. -/
def async_remove_entry (st : HassState) : HassState × Except PyErr Bool :=
  remove_hooks st

/-! ## Concrete fixtures for witnesses and counterexamples -/

/-- A filesystem on which every directory enumeration raises. -/
def fsBroken : FileSystem where
  configDir := "/config"
  listDir := fun _ => none

/-- `/config/www/icons/` holds only files matching none of the three
patterns. -/
def fsMisc : FileSystem where
  configDir := "/config"
  listDir := fun p =>
    if p = "/config/www/icons/" then some ["readme.txt", "logo.svg"] else none

/-- The `find_icons` output on `fsExample` / `/local/icons/`. -/
def outExample : FindOut :=
  ⟨{ favicon := some "/local/icons/favicon.ico"
     apple := some "/local/icons/favicon-apple-180x180.png"
     manifest := some [⟨"/local/icons/favicon-32x32.png", "32x32", "image/png"⟩] },
   false⟩

/-- A `hass.data[DOMAIN]` mapping holding captured originals. -/
def ddReady : DomainData :=
  ⟨some (.original 0), some ⟨0, [⟨"/static/icons/hass.png", "512x512", "image/png"⟩]⟩,
   ⟨none, none, none⟩⟩

/-- A host state after a successful capture. -/
def stReady : HassState :=
  ⟨⟨.original 0,
    ⟨⟨1, [⟨"/static/icons/hass.png", "512x512", "image/png"⟩]⟩,
     "Home Assistant", "Assistant"⟩, some 5⟩,
   some ddReady, 2⟩

/-- A host state in which nothing was ever captured. -/
def stFresh : HassState :=
  ⟨⟨.original 7,
    ⟨⟨0, [⟨"/static/icons/hass.png", "512x512", "image/png"⟩]⟩,
     "Home Assistant", "Assistant"⟩, some 3⟩,
   none, 1⟩

/-- A full configuration record. -/
def confExample : Conf :=
  ⟨some "My Home", some "/local/icons/", some "#FF0000"⟩

/-- A configuration whose icon path does not start with `/local/`. -/
def confOther : Conf :=
  ⟨none, some "/other/prefix", none⟩

/-- A configuration pointing at `fsBroken`'s unenumerable folder. -/
def confBroken : Conf :=
  ⟨some "My Home", some "/local/icons/", none⟩

/-- A rendered document shape for the accent-color substitutions: one
mask-icon link tag with color `c1`, then two `<path fill="...">` elements
with fills `c2` and `c3`. -/
def colorDoc (c1 c2 c3 : List Char) : List Char :=
  maskLinkBefore ++ c1 ++ maskLinkAfter ++ pathFillBefore ++ c2
    ++ "\"/>".toList ++ pathFillBefore ++ c3 ++ "\"/>".toList

/-! ## Lemmas about the directory scan -/

/-- The `manifest` entries contributed by a single directory entry. -/
def entryManifest (base fn : String) : List ManifestIcon :=
  match sizedIconMatch fn.toList with
  | some sz => [⟨pathJoin base fn, ⟨sz⟩, "image/png"⟩]
  | none => []

theorem scanEntry_favicon (base : String) (acc : ScanAcc) (fn : String) :
    (scanEntry base acc fn).favicon =
      if fn = "favicon.ico" then some (pathJoin base fn) else acc.favicon := by
  unfold scanEntry
  cases sizedIconMatch fn.toList <;> split_ifs <;> rfl

theorem scanEntry_apple (base : String) (acc : ScanAcc) (fn : String) :
    (scanEntry base acc fn).apple =
      if appleMatch fn.toList then some (pathJoin base fn) else acc.apple := by
  unfold scanEntry
  cases sizedIconMatch fn.toList <;> split_ifs <;> rfl

theorem scanEntry_manifest (base : String) (acc : ScanAcc) (fn : String) :
    (scanEntry base acc fn).manifest = acc.manifest ++ entryManifest base fn := by
  unfold scanEntry entryManifest
  cases sizedIconMatch fn.toList <;> split_ifs <;> simp

theorem scanDir_manifest (base : String) :
    ∀ (entries : List String) (acc : ScanAcc),
      (scanDir base acc entries).manifest =
        acc.manifest ++ (entries.map (entryManifest base)).flatten := by
  intro entries
  induction entries with
  | nil => intro acc; simp [scanDir]
  | cons fn rest ih =>
    intro acc
    simp [scanDir, ih, scanEntry_manifest, List.append_assoc]

theorem scanDir_favicon_src (base : String) :
    ∀ (entries : List String) (acc : ScanAcc),
      (scanDir base acc entries).favicon = acc.favicon ∨
        ∃ n ∈ entries, (scanDir base acc entries).favicon = some (pathJoin base n) := by
  intro entries
  induction entries with
  | nil => intro acc; simp [scanDir]
  | cons fn rest ih =>
    intro acc
    rcases ih (scanEntry base acc fn) with h | ⟨n, hn, h⟩
    · rw [scanDir, h, scanEntry_favicon]
      split_ifs
      · exact Or.inr ⟨fn, by simp⟩
      · exact Or.inl rfl
    · exact Or.inr ⟨n, by simp [hn], by rw [scanDir, h]⟩

theorem scanDir_apple_src (base : String) :
    ∀ (entries : List String) (acc : ScanAcc),
      (scanDir base acc entries).apple = acc.apple ∨
        ∃ n ∈ entries, (scanDir base acc entries).apple = some (pathJoin base n) := by
  intro entries
  induction entries with
  | nil => intro acc; simp [scanDir]
  | cons fn rest ih =>
    intro acc
    rcases ih (scanEntry base acc fn) with h | ⟨n, hn, h⟩
    · rw [scanDir, h, scanEntry_apple]
      split_ifs
      · exact Or.inr ⟨fn, by simp⟩
      · exact Or.inl rfl
    · exact Or.inr ⟨n, by simp [hn], by rw [scanDir, h]⟩

/-- An entry matching none of the three classifiers leaves the loop
accumulator untouched. -/
theorem scanEntry_id (base : String) (acc : ScanAcc) (fn : String)
    (h1 : fn ≠ "favicon.ico") (h2 : appleMatch fn.toList = false)
    (h3 : sizedIconMatch fn.toList = none) :
    scanEntry base acc fn = acc := by
  unfold scanEntry
  rw [h3]
  split_ifs <;> simp_all

theorem scanDir_no_match (base : String) :
    ∀ (entries : List String) (acc : ScanAcc),
      (∀ fn ∈ entries, fn ≠ "favicon.ico" ∧ appleMatch fn.toList = false ∧
        sizedIconMatch fn.toList = none) →
      scanDir base acc entries = acc := by
  intro entries
  induction entries with
  | nil => intro acc _; rfl
  | cons fn rest ih =>
    intro acc h
    obtain ⟨h1, h2, h3⟩ := h fn (by simp)
    rw [scanDir, scanEntry_id base acc fn h1 h2 h3]
    exact ih acc fun g hg => h g (by simp [hg])

/-- Evaluation of `find_icons` on an invalid path string. -/
theorem find_icons_invalid (fs : FileSystem) (s : String)
    (h : s = "" ∨ ¬ startsWith s "/local/" = true) :
    find_icons fs (some s) = .ok ⟨{}, true⟩ := by
  simp only [find_icons]
  rw [if_pos h]

/-- Evaluation of `find_icons` on a valid path over a listable directory. -/
theorem find_icons_valid (fs : FileSystem) (s : String) (entries : List String)
    (h1 : ¬ (s = "" ∨ ¬ startsWith s "/local/" = true))
    (h2 : fs.listDir (fs.configDir ++ "/" ++ localPathOf s) = some entries) :
    find_icons fs (some s) =
      .ok ⟨finishScan (scanDir (normPath s) ⟨none, none, []⟩ entries), false⟩ := by
  simp only [find_icons]
  rw [if_neg h1, h2]

/-- Evaluation of `find_icons` on a valid path whose directory raises. -/
theorem find_icons_raises (fs : FileSystem) (s : String)
    (h1 : ¬ (s = "" ∨ ¬ startsWith s "/local/" = true))
    (h2 : fs.listDir (fs.configDir ++ "/" ++ localPathOf s) = none) :
    find_icons fs (some s) = .error .osError := by
  simp only [find_icons]
  rw [if_neg h1, h2]

/-! ## Lemmas about the lifecycle operations -/

@[simp] theorem addTitleKeys_domainData (st : HassState) (t : Option String) :
    (addTitleKeys st t).domainData = st.domainData := by
  unfold addTitleKeys; split_ifs <;> rfl

@[simp] theorem addTitleKeys_alloc (st : HassState) (t : Option String) :
    (addTitleKeys st t).alloc = st.alloc := by
  unfold addTitleKeys; split_ifs <;> rfl

@[simp] theorem addTitleKeys_icons (st : HassState) (t : Option String) :
    (addTitleKeys st t).frontend.manifest.icons = st.frontend.manifest.icons := by
  unfold addTitleKeys; split_ifs <;> rfl

@[simp] theorem addTitleKeys_getTemplate (st : HassState) (t : Option String) :
    (addTitleKeys st t).frontend.getTemplate = st.frontend.getTemplate := by
  unfold addTitleKeys; split_ifs <;> rfl

/-- Closed form of `remove_hooks` on a state holding captured originals. -/
theorem remove_hooks_eq (st : HassState) (dd : DomainData) (tf : TemplateFn)
    (pl : PyList) (hdd : st.domainData = some dd)
    (hgt : dd.get_template = some tf) (hpl : dd.manifest_icons = some pl) :
    remove_hooks st =
      ({ frontend := { getTemplate := tf,
                       manifest := ⟨⟨st.alloc, pl.val⟩, "Home Assistant", "Assistant"⟩,
                       indexViewCache := st.frontend.indexViewCache },
         domainData := st.domainData,
         alloc := st.alloc + 1 }, .ok true) := by
  simp only [remove_hooks, hdd, hgt, hpl, allocList]

/-! ## Claims -/

/-- C1: scanning `/local/icons/` over a directory holding exactly
`favicon.ico`, `favicon-apple-180x180.png` and `favicon-32x32.png` yields
`favicon = "/local/icons/favicon.ico"`,
`apple = "/local/icons/favicon-apple-180x180.png"` and a single manifest
entry `{src := "/local/icons/favicon-32x32.png", sizes := "32x32",
type := "image/png"}`; and in general every `favicon`/`apple`/`src` value
joins the web-facing base path with a bare filename from the scanned
directory, never the local filesystem path. -/
theorem C1_find_icons_web_paths :
    find_icons fsExample (some "/local/icons/") = .ok outExample ∧
    ∀ (fs : FileSystem) (s : String) (entries : List String) (out : FindOut),
      fs.listDir (fs.configDir ++ "/" ++ localPathOf s) = some entries →
      find_icons fs (some s) = .ok out →
      (∀ v, out.icons.favicon = some v → ∃ n ∈ entries, v = pathJoin (normPath s) n) ∧
      (∀ v, out.icons.apple = some v → ∃ n ∈ entries, v = pathJoin (normPath s) n) ∧
      (∀ l, out.icons.manifest = some l →
        ∀ mi ∈ l, ∃ n ∈ entries, mi.src = pathJoin (normPath s) n) := by
  constructor
  · decide
  · intro fs s entries out hls hfind
    by_cases hval : s = "" ∨ ¬ startsWith s "/local/" = true
    · rw [find_icons_invalid fs s hval] at hfind
      injection hfind with h
      subst h
      exact ⟨fun v hv => by simp at hv, fun v hv => by simp at hv,
        fun l hl => by simp at hl⟩
    · rw [find_icons_valid fs s entries hval hls] at hfind
      injection hfind with h
      subst h
      refine ⟨?_, ?_, ?_⟩
      · intro v hv
        simp only [finishScan] at hv
        rcases scanDir_favicon_src (normPath s) entries ⟨none, none, []⟩ with h | ⟨n, hn, h⟩
        · simp only [h] at hv
          cases hv
        · simp only [h] at hv
          exact ⟨n, hn, by injection hv with hv; exact hv.symm⟩
      · intro v hv
        simp only [finishScan] at hv
        rcases scanDir_apple_src (normPath s) entries ⟨none, none, []⟩ with h | ⟨n, hn, h⟩
        · simp only [h] at hv
          cases hv
        · simp only [h] at hv
          exact ⟨n, hn, by injection hv with hv; exact hv.symm⟩
      · intro l hl mi hmi
        simp only [finishScan, scanDir_manifest, List.nil_append] at hl
        split at hl
        · cases hl
        · cases hl
          simp only [List.mem_flatten, List.mem_map] at hmi
          obtain ⟨sub, ⟨n, hn, rfl⟩, hmisub⟩ := hmi
          refine ⟨n, hn, ?_⟩
          unfold entryManifest at hmisub
          rcases h : sizedIconMatch n.toList with _ | sz <;> rw [h] at hmisub
          · cases hmisub
          · simp only [List.mem_singleton] at hmisub
            rw [hmisub]

/-- C1 witness: the general join property applied to the concrete scan. -/
theorem C1_find_icons_web_paths_witness :
    ∃ n ∈ ["favicon.ico", "favicon-apple-180x180.png", "favicon-32x32.png"],
      "/local/icons/favicon.ico" = pathJoin (normPath "/local/icons/") n :=
  (C1_find_icons_web_paths.2 fsExample "/local/icons/"
      ["favicon.ico", "favicon-apple-180x180.png", "favicon-32x32.png"]
      outExample (by decide) (by decide)).1
    "/local/icons/favicon.ico" (by decide)

/-- C3: for an absent (`None`/empty) icon path or one not starting with
`/local/`, `find_icons` returns the empty mapping with the `Invalid Path`
error logged, and `apply_hooks` on such a configuration (given captured
originals) still returns `True` — the logged error is non‑fatal to the
caller. -/
theorem C3_invalid_path_empty_and_nonfatal :
    ∀ (fs : FileSystem) (p : Option String),
      (p = none ∨ ∃ s, p = some s ∧ (s = "" ∨ startsWith s "/local/" = false)) →
      find_icons fs p = .ok ⟨{}, true⟩ ∧
      ∀ (st : HassState) (cfg : Conf) (dd : DomainData) (pl : PyList),
        st.domainData = some dd → dd.manifest_icons = some pl →
        cfg.icon_path = p →
        (apply_hooks fs st cfg).2 = .ok true := by
  intro fs p hp
  have hfind : find_icons fs p = .ok ⟨{}, true⟩ := by
    rcases hp with rfl | ⟨s, rfl, hs⟩
    · rfl
    · exact find_icons_invalid fs s (by simpa using hs)
  refine ⟨hfind, ?_⟩
  intro st cfg dd pl hdd hpl hpath
  unfold apply_hooks
  rw [hpath, hfind]
  simp only [hdd, Option.getD_some, hpl, allocList]

/-- C3 witness: the concrete `/other/prefix` scenario of the spec. -/
theorem C3_invalid_path_empty_and_nonfatal_witness :
    find_icons fsExample (some "/other/prefix") = .ok ⟨{}, true⟩ ∧
      (apply_hooks fsExample stReady confOther).2 = .ok true := by
  have h := C3_invalid_path_empty_and_nonfatal fsExample (some "/other/prefix")
    (Or.inr ⟨"/other/prefix", rfl, Or.inr (by decide)⟩)
  exact ⟨h.1, h.2 stReady confOther ddReady
    ⟨0, [⟨"/static/icons/hass.png", "512x512", "image/png"⟩]⟩ rfl rfl rfl⟩

/-- C4: the returned mapping carries a `manifest` key only if some filename
matched the sized-icon pattern; an entry matching none of the three
classifiers leaves the accumulator untouched; a scan without any match, and
an invalid source folder, both yield the empty mapping. -/
theorem C4_manifest_only_if_match :
    (∀ (fs : FileSystem) (s : String) (entries : List String) (out : FindOut),
      fs.listDir (fs.configDir ++ "/" ++ localPathOf s) = some entries →
      find_icons fs (some s) = .ok out →
      out.icons.manifest ≠ none → ∃ fn ∈ entries, sizedIconMatch fn.toList ≠ none) ∧
    (∀ (base : String) (acc : ScanAcc) (fn : String),
      fn ≠ "favicon.ico" → appleMatch fn.toList = false →
      sizedIconMatch fn.toList = none → scanEntry base acc fn = acc) ∧
    (∀ (fs : FileSystem) (s : String) (entries : List String) (out : FindOut),
      fs.listDir (fs.configDir ++ "/" ++ localPathOf s) = some entries →
      find_icons fs (some s) = .ok out →
      (∀ fn ∈ entries, fn ≠ "favicon.ico" ∧ appleMatch fn.toList = false ∧
        sizedIconMatch fn.toList = none) →
      out.icons = {}) ∧
    (∀ (fs : FileSystem) (p : Option String),
      (p = none ∨ ∃ s, p = some s ∧ (s = "" ∨ startsWith s "/local/" = false)) →
      ∃ b, find_icons fs p = .ok ⟨{}, b⟩) := by
  refine ⟨?_, scanEntry_id, ?_, ?_⟩
  · intro fs s entries out hls hfind hman
    by_cases hval : s = "" ∨ ¬ startsWith s "/local/" = true
    · rw [find_icons_invalid fs s hval] at hfind
      injection hfind with h
      subst h
      simp at hman
    · rw [find_icons_valid fs s entries hval hls] at hfind
      injection hfind with h
      subst h
      simp only [finishScan, scanDir_manifest, List.nil_append] at hman
      split at hman
      · simp at hman
      · next hne =>
        rcases List.exists_mem_of_ne_nil _ hne with ⟨mi, hmi⟩
        simp only [List.mem_flatten, List.mem_map] at hmi
        obtain ⟨sub, ⟨n, hn, rfl⟩, hmisub⟩ := hmi
        refine ⟨n, hn, ?_⟩
        unfold entryManifest at hmisub
        rcases h : sizedIconMatch n.toList with _ | sz <;> rw [h] at hmisub
        · cases hmisub
        · simp [h]
  · intro fs s entries out hls hfind hall
    by_cases hval : s = "" ∨ ¬ startsWith s "/local/" = true
    · rw [find_icons_invalid fs s hval] at hfind
      injection hfind with h
      subst h
      rfl
    · rw [find_icons_valid fs s entries hval hls] at hfind
      injection hfind with h
      subst h
      rw [scanDir_no_match (normPath s) entries ⟨none, none, []⟩ hall]
      rfl
  · intro fs p hp
    rcases hp with rfl | ⟨s, rfl, hs⟩
    · exact ⟨true, rfl⟩
    · exact ⟨true, find_icons_invalid fs s (by simpa using hs)⟩

/-- C4 witness: a directory with only non-matching filenames yields the
empty mapping. -/
theorem C4_manifest_only_if_match_witness :
    ∃ out : FindOut, find_icons fsMisc (some "/local/icons/") = .ok out ∧
      out.icons = {} := by
  refine ⟨⟨{}, false⟩, by decide, ?_⟩
  exact C4_manifest_only_if_match.2.2.1 fsMisc "/local/icons/"
    ["readme.txt", "logo.svg"] ⟨{}, false⟩ (by decide) (by decide) (by decide)

/-- C10: a list that is not exactly three components, or has a component
outside `0..255`, makes `rgb_list_to_hex` return `None` (no exception), and
`_convert_color_to_hex` then keeps the malformed list unchanged. -/
theorem C10_rgb_invalid_none_and_unchanged :
    ∀ l : List Int, (l.length ≠ 3 ∨ ∃ x ∈ l, x < 0 ∨ 255 < x) →
      rgb_list_to_hex l = none ∧
      convert_color_to_hex (.intList l) = .intList l := by
  intro l hl
  have hguard : l.length ≠ 3 ∨ ¬ ∀ x ∈ l, 0 ≤ x ∧ x ≤ 255 := by
    rcases hl with h | ⟨x, hx, hxv⟩
    · exact Or.inl h
    · refine Or.inr fun hall => ?_
      rcases hall x hx with ⟨h1, h2⟩
      omega
  have hnone : rgb_list_to_hex l = none := by
    unfold rgb_list_to_hex
    rw [if_pos hguard]
  refine ⟨hnone, ?_⟩
  simp only [convert_color_to_hex, hnone]

/-- C10 witness: an out-of-range component. -/
theorem C10_rgb_invalid_none_and_unchanged_witness :
    rgb_list_to_hex [300, 0, 0] = none ∧
      convert_color_to_hex (.intList [300, 0, 0]) = .intList [300, 0, 0] :=
  C10_rgb_invalid_none_and_unchanged [300, 0, 0]
    (Or.inr ⟨300, by decide, by decide⟩)

/-- C2 counterexample: on an unenumerable directory `find_icons` raises an
`OSError` subclass — not a `LookupError` — and `apply_hooks` propagates it
instead of succeeding with an empty IconSet. -/
theorem C2_counterexample_enumeration_failure_fatal :
    find_icons fsBroken (some "/local/icons/") = .error .osError ∧
    find_icons fsBroken (some "/local/icons/") ≠ .error .lookupError ∧
    (apply_hooks fsBroken stReady confBroken).2 = .error .osError ∧
    (apply_hooks fsBroken stReady confBroken).2 ≠ .ok true := by
  decide

/-- C2 amended: a directory-enumeration failure on a valid `/local/` path
raises an `OSError` subclass that propagates uncaught through `find_icons`
and `apply_hooks`; the activation fails (no state change, no `True` return)
instead of continuing with an empty IconSet. -/
theorem C2_enumeration_failure_propagates :
    ∀ (fs : FileSystem) (st : HassState) (cfg : Conf) (s : String),
      cfg.icon_path = some s →
      ¬ (s = "" ∨ ¬ startsWith s "/local/" = true) →
      fs.listDir (fs.configDir ++ "/" ++ localPathOf s) = none →
      find_icons fs (some s) = .error .osError ∧
      apply_hooks fs st cfg = (st, .error .osError) := by
  intro fs st cfg s hpath hval hdir
  have h := find_icons_raises fs s hval hdir
  refine ⟨h, ?_⟩
  unfold apply_hooks
  rw [hpath, h]

/-- C2 witness for the amended claim. -/
theorem C2_enumeration_failure_propagates_witness :
    find_icons fsBroken (some "/local/icons/") = .error .osError ∧
      apply_hooks fsBroken stReady confBroken = (stReady, .error .osError) :=
  C2_enumeration_failure_propagates fsBroken stReady confBroken "/local/icons/"
    rfl (by decide) rfl

/-- C8: `remove_hooks` in a process where no activation ever captured the
originals raises `KeyError`, and `async_remove_entry` passes the call
through without catching or logging. -/
theorem C8_remove_hooks_uncaptured_raises :
    ∀ st : HassState,
      (st.domainData = none ∨
        ∃ dd, st.domainData = some dd ∧ dd.get_template = none) →
      (remove_hooks st).2 = .error .keyError ∧
      async_remove_entry st = remove_hooks st := by
  intro st h
  refine ⟨?_, rfl⟩
  rcases h with h | ⟨dd, hdd, hgt⟩
  · simp only [remove_hooks, h]
  · simp only [remove_hooks, hdd, hgt]

/-- C8 witness: a never-captured state. -/
theorem C8_remove_hooks_uncaptured_raises_witness :
    (remove_hooks stFresh).2 = .error .keyError ∧
      async_remove_entry stFresh = remove_hooks stFresh :=
  C8_remove_hooks_uncaptured_raises stFresh (Or.inl rfl)

/-- C7: after a capture (`async_setup`), an activation (`apply_hooks`) and a
removal (`remove_hooks`), all succeeding, the manifest name and short name
are the fixed defaults, the template slot is reference-equal to the
pre-activation original, and the manifest icon list holds the value captured
before first activation in a list object that does not share identity with
the cached original. -/
theorem C7_remove_restores_originals :
    ∀ (st0 : HassState) (conf : Conf) (fs : FileSystem) (out : FindOut),
      st0.domainData = none →
      find_icons fs conf.icon_path = .ok out →
      (async_setup st0 none).2 = .ok true ∧
      (apply_hooks fs (async_setup st0 none).1 conf).2 = .ok true ∧
      (remove_hooks (apply_hooks fs (async_setup st0 none).1 conf).1).2 = .ok true ∧
      (remove_hooks (apply_hooks fs (async_setup st0 none).1 conf).1).1.frontend.manifest.name
        = "Home Assistant" ∧
      (remove_hooks (apply_hooks fs (async_setup st0 none).1 conf).1).1.frontend.manifest.short_name
        = "Assistant" ∧
      (remove_hooks (apply_hooks fs (async_setup st0 none).1 conf).1).1.frontend.getTemplate
        = st0.frontend.getTemplate ∧
      (remove_hooks (apply_hooks fs (async_setup st0 none).1 conf).1).1.frontend.manifest.icons.val
        = st0.frontend.manifest.icons.val ∧
      (∀ dd pl,
        (remove_hooks (apply_hooks fs (async_setup st0 none).1 conf).1).1.domainData = some dd →
        dd.manifest_icons = some pl →
        (remove_hooks (apply_hooks fs (async_setup st0 none).1 conf).1).1.frontend.manifest.icons.val
          = pl.val ∧
        (remove_hooks (apply_hooks fs (async_setup st0 none).1 conf).1).1.frontend.manifest.icons.ref
          ≠ pl.ref) := by
  intro st0 conf fs out h0 hscan
  have h1 : async_setup st0 none =
      ({ frontend := st0.frontend,
         domainData := some { get_template := some st0.frontend.getTemplate,
                              manifest_icons := some ⟨st0.alloc, st0.frontend.manifest.icons.val⟩,
                              conf := ⟨none, none, none⟩ },
         alloc := st0.alloc + 1 }, .ok true) := by
    simp [async_setup, h0, emptyDomainData, allocList]
  rw [h1]
  have h2 : (apply_hooks fs
        ({ frontend := st0.frontend,
           domainData := some { get_template := some st0.frontend.getTemplate,
                                manifest_icons := some ⟨st0.alloc, st0.frontend.manifest.icons.val⟩,
                                conf := ⟨none, none, none⟩ },
           alloc := st0.alloc + 1 } : HassState) conf).2 = .ok true ∧
      (apply_hooks fs
        ({ frontend := st0.frontend,
           domainData := some { get_template := some st0.frontend.getTemplate,
                                manifest_icons := some ⟨st0.alloc, st0.frontend.manifest.icons.val⟩,
                                conf := ⟨none, none, none⟩ },
           alloc := st0.alloc + 1 } : HassState) conf).1.domainData =
        some { get_template := some st0.frontend.getTemplate,
               manifest_icons := some ⟨st0.alloc, st0.frontend.manifest.icons.val⟩,
               conf := ⟨none, none, none⟩ } ∧
      (apply_hooks fs
        ({ frontend := st0.frontend,
           domainData := some { get_template := some st0.frontend.getTemplate,
                                manifest_icons := some ⟨st0.alloc, st0.frontend.manifest.icons.val⟩,
                                conf := ⟨none, none, none⟩ },
           alloc := st0.alloc + 1 } : HassState) conf).1.alloc = st0.alloc + 2 := by
    unfold apply_hooks
    rw [hscan]
    rcases hm : out.icons.manifest with _ | m <;>
      simp [hm, allocList]
  obtain ⟨h2a, h2b, h2c⟩ := h2
  have h3 := remove_hooks_eq _ _ _ _ h2b rfl rfl
  refine ⟨rfl, h2a, ?_, ?_, ?_, ?_, ?_, ?_⟩
  · rw [h3]
  · rw [h3]
  · rw [h3]
  · rw [h3]
  · rw [h3]
  · intro dd pl hdd hpl
    rw [h3] at hdd ⊢
    simp only at hdd
    rw [h2b] at hdd
    injection hdd with hdd
    subst hdd
    simp only at hpl
    injection hpl with hpl
    subst hpl
    refine ⟨rfl, ?_⟩
    simp only [h2c]
    omega

/-- C7 witness: the concrete capture–activate–remove run. -/
theorem C7_remove_restores_originals_witness :
    (remove_hooks (apply_hooks fsExample (async_setup stFresh none).1 confExample).1).1.frontend.getTemplate
      = stFresh.frontend.getTemplate :=
  (C7_remove_restores_originals stFresh confExample fsExample outExample rfl
    (by decide)).2.2.2.2.2.1

/-- C9: the installed render wrapper is a pure function of the captured
configuration and the original render's output: two calls on
independently-obtained original renders that agree on the given arguments
produce identical output text — no state accumulates between calls. -/
theorem C9_render_wrapper_stateless :
    ∀ (icons : IconSet) (title color : Option String)
      (r1 r2 : Nat → List Char) (a : Nat),
      r1 a = r2 a →
      hookedRender icons title color r1 a = hookedRender icons title color r2 a := by
  intro icons title color r1 r2 a h
  unfold hookedRender
  rw [h]

/-- C9 witness: two independently-constructed renders of the same document. -/
theorem C9_render_wrapper_stateless_witness :
    hookedRender {} none (some "#FF0000")
        (fun _ => "<path fill=\"#18bcf2\"/>".toList) 0 =
      hookedRender {} none (some "#FF0000")
        (fun _ => "<path fill=\"#18bcf2\"/>".toList) 0 :=
  C9_render_wrapper_stateless {} none (some "#FF0000") _ _ 0 rfl

/-! ## Lemmas for the color round-trip -/

theorem hexDigitUpper_facts :
    ∀ v < 16, pyUpperChar (pyLowerChar (hexDigitUpper v)) = hexDigitUpper v ∧
      pyLowerChar (hexDigitUpper v) ≠ '#' ∧
      hexVal (hexDigitUpper v) = some v := by
  decide

theorem parse_pair_upper :
    ∀ v < 16, ∀ w < 16,
      parseHexInt [hexDigitUpper v, hexDigitUpper w] =
        some ((16 * v + w : Nat) : Int) := by
  decide

theorem hexChar_facts (c : Char) (h : c ∈ hexClass) :
    ∃ v, hexVal (pyUpperChar c) = some v ∧ v < 16 ∧
      hexDigitUpper v = pyUpperChar c ∧
      pyLowerChar (pyUpperChar c) = pyLowerChar c ∧
      c ≠ '#' ∧ pyLowerChar c ≠ '#' := by
  fin_cases h <;>
    exact ⟨_, rfl, by decide, by decide, by decide, by decide, by decide⟩

theorem startsWith_hash_false (c : Char) (rest : List Char) (h : c ≠ '#') :
    startsWith ⟨c :: rest⟩ "#" = false := by
  have h2 : ('#' == c) = false := by
    simp only [beq_eq_false_iff_ne]
    exact fun e => h e.symm
  simp [startsWith, List.isPrefixOf, h2]

theorem hex6_parse (c1 c2 c3 c4 c5 c6 : Char) (h1 : c1 ≠ '#') :
    hex_to_rgb_list ⟨['#', c1, c2, c3, c4, c5, c6]⟩ =
      match parseHexInt [pyUpperChar c1, pyUpperChar c2],
          parseHexInt [pyUpperChar c3, pyUpperChar c4],
          parseHexInt [pyUpperChar c5, pyUpperChar c6] with
      | some rv, some gv, some bv => some [rv, gv, bv]
      | _, _, _ => none := by
  unfold hex_to_rgb_list slice
  simp [List.dropWhile, h1]

/-- The guard of `rgb_list_to_hex` is false on an in-range triple. -/
theorem rgb_guard_false (r g b : Int) (hr0 : 0 ≤ r) (hr1 : r ≤ 255)
    (hg0 : 0 ≤ g) (hg1 : g ≤ 255) (hb0 : 0 ≤ b) (hb1 : b ≤ 255) :
    ¬ (([r, g, b] : List Int).length ≠ 3 ∨ ¬ ∀ x ∈ ([r, g, b] : List Int), 0 ≤ x ∧ x ≤ 255) := by
  push_neg
  refine ⟨rfl, ?_⟩
  intro x hx
  simp only [List.mem_cons, List.not_mem_nil, or_false] at hx
  rcases hx with rfl | rfl | rfl <;> omega

/-- `rgb_list_to_hex` on an in-range triple, in closed form. -/
theorem rgb_list_to_hex_eq (r g b : Int) (hr0 : 0 ≤ r) (hr1 : r ≤ 255)
    (hg0 : 0 ≤ g) (hg1 : g ≤ 255) (hb0 : 0 ≤ b) (hb1 : b ≤ 255) :
    rgb_list_to_hex [r, g, b] =
      some ⟨['#',
        pyLowerChar (hexDigitUpper (r.toNat / 16)),
        pyLowerChar (hexDigitUpper (r.toNat % 16)),
        pyLowerChar (hexDigitUpper (g.toNat / 16)),
        pyLowerChar (hexDigitUpper (g.toNat % 16)),
        pyLowerChar (hexDigitUpper (b.toNat / 16)),
        pyLowerChar (hexDigitUpper (b.toNat % 16))]⟩ := by
  have hfst : pyLowerChar (hexDigitUpper (r.toNat / 16)) ≠ '#' :=
    (hexDigitUpper_facts (r.toNat / 16) (by omega)).2.1
  unfold rgb_list_to_hex
  rw [if_neg (rgb_guard_false r g b hr0 hr1 hg0 hg1 hb0 hb1)]
  simp only [List.getD_cons_zero, List.getD_cons_succ, byteHexUpper,
    List.cons_append, List.nil_append, List.map_cons, List.map_nil]
  rw [startsWith_hash_false _ _ hfst]
  rfl

/-- Round trip, byte triple through hex and back. -/
theorem rgb_then_hex_round (r g b : Int) (hr0 : 0 ≤ r) (hr1 : r ≤ 255)
    (hg0 : 0 ≤ g) (hg1 : g ≤ 255) (hb0 : 0 ≤ b) (hb1 : b ≤ 255) :
    ∃ h, rgb_list_to_hex [r, g, b] = some h ∧
      hex_to_rgb_list h = some [r, g, b] := by
  refine ⟨_, rgb_list_to_hex_eq r g b hr0 hr1 hg0 hg1 hb0 hb1, ?_⟩
  have e1 := hexDigitUpper_facts (r.toNat / 16) (by omega)
  have e2 := hexDigitUpper_facts (r.toNat % 16) (by omega)
  have e3 := hexDigitUpper_facts (g.toNat / 16) (by omega)
  have e4 := hexDigitUpper_facts (g.toNat % 16) (by omega)
  have e5 := hexDigitUpper_facts (b.toNat / 16) (by omega)
  have e6 := hexDigitUpper_facts (b.toNat % 16) (by omega)
  rw [hex6_parse _ _ _ _ _ _ e1.2.1, e1.1, e2.1, e3.1, e4.1, e5.1, e6.1,
    parse_pair_upper (r.toNat / 16) (by omega) (r.toNat % 16) (by omega),
    parse_pair_upper (g.toNat / 16) (by omega) (g.toNat % 16) (by omega),
    parse_pair_upper (b.toNat / 16) (by omega) (b.toNat % 16) (by omega)]
  have hr2 : 16 * (r.toNat / 16) + r.toNat % 16 = r.toNat := by omega
  have hg2 : 16 * (g.toNat / 16) + g.toNat % 16 = g.toNat := by omega
  have hb2 : 16 * (b.toNat / 16) + b.toNat % 16 = b.toNat := by omega
  rw [hr2, hg2, hb2, Int.toNat_of_nonneg hr0, Int.toNat_of_nonneg hg0,
    Int.toNat_of_nonneg hb0]

/-- Round trip, `#RRGGBB` string through the RGB list and back to its
lowercase form. -/
theorem hex_then_rgb_round (d1 d2 d3 d4 d5 d6 : Char)
    (h1 : d1 ∈ hexClass) (h2 : d2 ∈ hexClass) (h3 : d3 ∈ hexClass)
    (h4 : d4 ∈ hexClass) (h5 : d5 ∈ hexClass) (h6 : d6 ∈ hexClass) :
    ∃ rgb, hex_to_rgb_list ⟨['#', d1, d2, d3, d4, d5, d6]⟩ = some rgb ∧
      rgb_list_to_hex rgb =
        some ⟨List.map pyLowerChar ['#', d1, d2, d3, d4, d5, d6]⟩ := by
  obtain ⟨v1, hv1, hlt1, hup1, hlow1, hne1, hlne1⟩ := hexChar_facts d1 h1
  obtain ⟨v2, hv2, hlt2, hup2, hlow2, hne2, hlne2⟩ := hexChar_facts d2 h2
  obtain ⟨v3, hv3, hlt3, hup3, hlow3, hne3, hlne3⟩ := hexChar_facts d3 h3
  obtain ⟨v4, hv4, hlt4, hup4, hlow4, hne4, hlne4⟩ := hexChar_facts d4 h4
  obtain ⟨v5, hv5, hlt5, hup5, hlow5, hne5, hlne5⟩ := hexChar_facts d5 h5
  obtain ⟨v6, hv6, hlt6, hup6, hlow6, hne6, hlne6⟩ := hexChar_facts d6 h6
  refine ⟨[((16 * v1 + v2 : Nat) : Int), ((16 * v3 + v4 : Nat) : Int),
    ((16 * v5 + v6 : Nat) : Int)], ?_, ?_⟩
  · rw [hex6_parse _ _ _ _ _ _ hne1, ← hup1, ← hup2, ← hup3, ← hup4,
      ← hup5, ← hup6,
      parse_pair_upper v1 hlt1 v2 hlt2, parse_pair_upper v3 hlt3 v4 hlt4,
      parse_pair_upper v5 hlt5 v6 hlt6]
  · rw [rgb_list_to_hex_eq _ _ _ (by omega) (by omega) (by omega) (by omega)
      (by omega) (by omega)]
    have n1 : ((16 * v1 + v2 : Nat) : Int).toNat = 16 * v1 + v2 := by omega
    have n2 : ((16 * v3 + v4 : Nat) : Int).toNat = 16 * v3 + v4 := by omega
    have n3 : ((16 * v5 + v6 : Nat) : Int).toNat = 16 * v5 + v6 := by omega
    rw [n1, n2, n3]
    have q1 : (16 * v1 + v2) / 16 = v1 := by omega
    have q2 : (16 * v1 + v2) % 16 = v2 := by omega
    have q3 : (16 * v3 + v4) / 16 = v3 := by omega
    have q4 : (16 * v3 + v4) % 16 = v4 := by omega
    have q5 : (16 * v5 + v6) / 16 = v5 := by omega
    have q6 : (16 * v5 + v6) % 16 = v6 := by omega
    rw [q1, q2, q3, q4, q5, q6, hup1, hup2, hup3, hup4, hup5, hup6,
      hlow1, hlow2, hlow3, hlow4, hlow5, hlow6]
    rfl


/-- C5: the color conversions round-trip: every in-range `[r, g, b]` triple
is reproduced by `hex_to_rgb_list` after `rgb_list_to_hex`, every `#RRGGBB`
hex string is reproduced in lowercase by `rgb_list_to_hex` after
`hex_to_rgb_list`, and the two named instances hold. -/
theorem C5_color_conversions_round_trip :
    (∀ r g b : Int, 0 ≤ r → r ≤ 255 → 0 ≤ g → g ≤ 255 → 0 ≤ b → b ≤ 255 →
      ∃ h, rgb_list_to_hex [r, g, b] = some h ∧
        hex_to_rgb_list h = some [r, g, b]) ∧
    (∀ d1 d2 d3 d4 d5 d6 : Char, d1 ∈ hexClass → d2 ∈ hexClass →
      d3 ∈ hexClass → d4 ∈ hexClass → d5 ∈ hexClass → d6 ∈ hexClass →
      ∃ rgb, hex_to_rgb_list ⟨['#', d1, d2, d3, d4, d5, d6]⟩ = some rgb ∧
        rgb_list_to_hex rgb =
          some ⟨List.map pyLowerChar ['#', d1, d2, d3, d4, d5, d6]⟩) ∧
    rgb_list_to_hex [24, 188, 242] = some "#18bcf2" ∧
    hex_to_rgb_list "#18BCF2" = some [24, 188, 242] :=
  ⟨rgb_then_hex_round, hex_then_rgb_round, by decide, by decide⟩

/-- C5 witness: the round trips at the spec's worked example. -/
theorem C5_color_conversions_round_trip_witness :
    (∃ h, rgb_list_to_hex [24, 188, 242] = some h ∧
      hex_to_rgb_list h = some [24, 188, 242]) ∧
    (∃ rgb, hex_to_rgb_list ⟨['#', '1', '8', 'B', 'C', 'F', '2']⟩ = some rgb ∧
      rgb_list_to_hex rgb =
        some ⟨List.map pyLowerChar ['#', '1', '8', 'B', 'C', 'F', '2']⟩) :=
  ⟨C5_color_conversions_round_trip.1 24 188 242 (by decide) (by decide)
      (by decide) (by decide) (by decide) (by decide),
    C5_color_conversions_round_trip.2.1 '1' '8' 'B' 'C' 'F' '2' (by decide)
      (by decide) (by decide) (by decide) (by decide) (by decide)⟩

/-- A hex-class character is not the `<` that opens either pattern
literal. -/
theorem hex_ne_lt {c : Char} (h : c ∈ hexClass) : (c = '<') = False := by
  fin_cases h <;> decide

/-- C6: with an accent color set, the render wrapper rewrites the mask-icon
link tag's `color` attribute from any prior 6-hex-digit value to the
override, rewrites the `fill` of the first matching `<path fill="...">`
element, and leaves the subsequent matching `<path fill="...">` occurrence
unchanged. -/
theorem C6_accent_color_rewrite
    (d1 d2 d3 d4 d5 d6 d7 d8 d9 d10 d11 d12 d13 d14 d15 d16 d17 d18 : Char)
    (h1 : d1 ∈ hexClass) (h2 : d2 ∈ hexClass) (h3 : d3 ∈ hexClass)
    (h4 : d4 ∈ hexClass) (h5 : d5 ∈ hexClass) (h6 : d6 ∈ hexClass)
    (h7 : d7 ∈ hexClass) (h8 : d8 ∈ hexClass) (h9 : d9 ∈ hexClass)
    (h10 : d10 ∈ hexClass) (h11 : d11 ∈ hexClass) (h12 : d12 ∈ hexClass)
    (h13 : d13 ∈ hexClass) (h14 : d14 ∈ hexClass) (h15 : d15 ∈ hexClass)
    (h16 : d16 ∈ hexClass) (h17 : d17 ∈ hexClass) (h18 : d18 ∈ hexClass) :
    new_render_text {} none (some "#FF0000")
        (colorDoc ['#', d1, d2, d3, d4, d5, d6]
          ['#', d7, d8, d9, d10, d11, d12]
          ['#', d13, d14, d15, d16, d17, d18]) =
      colorDoc "#FF0000".toList "#FF0000".toList
        ['#', d13, d14, d15, d16, d17, d18] := by
  simp [new_render_text, colorDoc, subColorAll, subColorFirst, subColorAllAux,
    subColorFirstAux, tryColorMatch, matchLit, hexColorChomp, maskLinkBefore,
    maskLinkAfter, pathFillBefore, pathFillAfter,
    h1, h2, h3, h4, h5, h6, h7, h8, h9, h10, h11, h12, h13, h14, h15, h16,
    h17, h18,
    hex_ne_lt h1, hex_ne_lt h2, hex_ne_lt h3, hex_ne_lt h4, hex_ne_lt h5,
    hex_ne_lt h6, hex_ne_lt h7, hex_ne_lt h8, hex_ne_lt h9, hex_ne_lt h10,
    hex_ne_lt h11, hex_ne_lt h12, hex_ne_lt h13, hex_ne_lt h14,
    hex_ne_lt h15, hex_ne_lt h16, hex_ne_lt h17, hex_ne_lt h18]

/-- C6 witness: concrete prior colors, second path untouched. -/
theorem C6_accent_color_rewrite_witness :
    new_render_text {} none (some "#FF0000")
        (colorDoc ['#', '1', '8', 'b', 'c', 'f', '2']
          ['#', 'a', 'a', 'b', 'b', '0', '1']
          ['#', 'a', 'a', 'b', 'b', '0', '2']) =
      colorDoc "#FF0000".toList "#FF0000".toList
        ['#', 'a', 'a', 'b', 'b', '0', '2'] :=
  C6_accent_color_rewrite '1' '8' 'b' 'c' 'f' '2' 'a' 'a' 'b' 'b' '0' '1'
    'a' 'a' 'b' 'b' '0' '2' (by decide) (by decide) (by decide) (by decide)
    (by decide) (by decide) (by decide) (by decide) (by decide) (by decide)
    (by decide) (by decide) (by decide) (by decide) (by decide) (by decide)
    (by decide) (by decide)

end Favicon
